import Mathlib

/-!
Shallow embedding of the MCP adapter servers (n8n, gemini-image, postgresql)
and proofs of the specification claims about them.

String-handling primitives model the JavaScript semantics used by the source
(`String.prototype.trim`, `toLowerCase` restricted to the code points relevant
here, `startsWith`), and each server-side function is translated directly from
its TypeScript/JavaScript source.  Remote effects (HTTP calls, pool client
acquisition, query execution) are represented by explicit outcome parameters,
and observable effects (adapter calls, log lines, process exit) by explicit
trace fields.
-/

set_option maxRecDepth 16384

namespace MCPServers

/-! ### JavaScript string primitives -/

/-- Whitespace per ECMAScript `String.prototype.trim`: the WhiteSpace
production (TAB, VT, FF, SP, NBSP, ZWNBSP and the Unicode Zs category)
together with the LineTerminator production (LF, CR, LS, PS). -/
def jsIsWhiteSpace (c : Char) : Bool :=
  let n := c.toNat
  n == 0x9 || n == 0xB || n == 0xC || n == 0x20 || n == 0xA0 || n == 0xFEFF ||
  n == 0xA || n == 0xD || n == 0x2028 || n == 0x2029 || n == 0x1680 ||
  (decide (0x2000 ≤ n) && decide (n ≤ 0x200A)) || n == 0x202F || n == 0x205F || n == 0x3000

/-- Lowercasing of a single code point.  For every code point that can
influence a comparison against the ASCII literal `"select"` (and for all
code points appearing in this development) this agrees with ECMAScript
`String.prototype.toLowerCase`. -/
def lowerChar (c : Char) : Char :=
  if 65 ≤ c.toNat ∧ c.toNat ≤ 90 then Char.ofNat (c.toNat + 32) else c

/-- Leading-whitespace removal on character lists. -/
def trimStartL (l : List Char) : List Char := l.dropWhile jsIsWhiteSpace

/-- Trailing-whitespace removal on character lists. -/
def trimEndL (l : List Char) : List Char := (l.reverse.dropWhile jsIsWhiteSpace).reverse

/-- JavaScript `s.trimStart()`. -/
def jsTrimStart (s : String) : String := String.mk (trimStartL s.toList)

/-- JavaScript `s.trim()` (removes leading and trailing whitespace). -/
def jsTrim (s : String) : String := String.mk (trimEndL (trimStartL s.toList))

/-- JavaScript `s.toLowerCase()` (on the relevant code points). -/
def jsToLower (s : String) : String := String.mk (s.toList.map lowerChar)

/-- JavaScript `s.startsWith(p)`. -/
def jsStartsWith (s p : String) : Bool := p.toList.isPrefixOf s.toList

/-! ### PostgreSQL read-only query tool (src/tools/query.ts, build/tools/query.js) -/

/-- One call made against the `DatabaseConnection` adapter singleton. -/
inductive AdapterCall where
  | connect (connectionString : String)
  | query (text : String) (params : List String)
  | disconnect
  deriving DecidableEq, Repr

/-- The `QueryResult` envelope returned by the query tool. -/
structure QueryResult where
  success : Bool
  message : String
  details : Option (List (List String))
  deriving DecidableEq, Repr

/-- Embedding of `executeQuery` from the query tool.  `connectRes` is the
outcome of `db.connect` (an `Error` message on failure) and `queryRes` the
outcome of `db.query` (rows, or an `Error` message); the second component of
the result is the ordered trace of adapter calls actually made. -/
def executeQuery (connectionString query : String) (params : List String)
    (connectRes : Except String Unit) (queryRes : Except String (List (List String))) :
    QueryResult × List AdapterCall :=
  if jsStartsWith (jsToLower (jsTrim query)) "select" = false then
    ({ success := false
       message := "Only SELECT queries are allowed for security reasons"
       details := none }, [])
  else
    match connectRes with
    | .error e =>
        ({ success := false
           message := "Failed to execute query: " ++ ("Failed to connect to database: " ++ e)
           details := none },
         [.connect connectionString, .disconnect])
    | .ok _ =>
        match queryRes with
        | .error e =>
            ({ success := false
               message := "Failed to execute query: " ++ ("Query failed: " ++ e)
               details := none },
             [.connect connectionString, .query query params, .disconnect])
        | .ok rows =>
            ({ success := true
               message := "Query executed successfully. Returned " ++ toString rows.length ++ " rows."
               details := some rows },
             [.connect connectionString, .query query params, .disconnect])

/-! ### PostgreSQL configuration (src/postgresql-mcp/src/utils/config.ts and
src/postgresql-mcp/src/tools/connections.ts) -/

/-- A parsed JSON value (the shapes that can appear in `PG_DB_MAP`). -/
inductive JVal where
  | str (s : String)
  | obj (fields : List (String × JVal))
  | null

/-- The process environment variables read by the PostgreSQL server.
`pgDbMap` is the parsed JSON object held by `PG_DB_MAP` (`none` when the
variable is unset or does not parse, which leave the loaded configuration
empty in exactly the same way). -/
structure PgEnv where
  pgDbMap : Option (List (String × JVal))
  pgConnectionString : Option String

/-- Lookup in a JavaScript-object-style association list. -/
def assocGet {α : Type} (m : List (String × α)) (k : String) : Option α :=
  (m.find? (fun e => e.1 == k)).map (fun e => e.2)

/-- Property assignment on a JavaScript-object-style association list:
overwrite in place when the key exists, append otherwise. -/
def assocSet {α : Type} (m : List (String × α)) (k : String) (v : α) : List (String × α) :=
  if (m.find? (fun e => e.1 == k)).isSome then
    m.map (fun e => if e.1 == k then (k, v) else e)
  else m ++ [(k, v)]

/-- JavaScript truthiness of a possibly-absent string (absent and `""` are falsy). -/
def jsTruthyOptStr (o : Option String) : Bool :=
  match o with
  | some s => s != ""
  | none => false

/-- JavaScript `x || null` on a possibly-absent string. -/
def jsOrNone (o : Option String) : Option String :=
  match o with
  | some s => if s = "" then none else some s
  | none => none

/-- The `DatabaseConfig` record of config.ts; `dflt` is its `default` field. -/
structure DatabaseConfig where
  connections : List (String × String)
  dflt : Option String
  deriving DecidableEq, Repr

/-- Embedding of `loadConfig` from config.ts: connection names are stored
lowercased, the `default` entry is kept only when it names a (truthy)
connection, and legacy `PG_CONNECTION_STRING` is used when no connections
were loaded. -/
def loadConfig (env : PgEnv) : DatabaseConfig :=
  let cfg : DatabaseConfig :=
    match env.pgDbMap with
    | some fields =>
      let conns := fields.foldl (fun acc kv =>
        match kv.2 with
        | JVal.str v => if kv.1 ≠ "default" then assocSet acc (jsToLower kv.1) v else acc
        | _ => acc) ([] : List (String × String))
      match assocGet fields "default" with
      | some (JVal.str d) =>
        if d ≠ "" ∧ jsTruthyOptStr (assocGet conns (jsToLower d)) then
          ⟨conns, some (jsToLower d)⟩
        else ⟨conns, none⟩
      | _ => ⟨conns, none⟩
    | none => ⟨[], none⟩
  if cfg.connections.isEmpty && jsTruthyOptStr env.pgConnectionString then
    ⟨[("default", env.pgConnectionString.getD "")], some "default"⟩
  else cfg

/-- Embedding of `getConnectionString` from config.ts, reading the supplied
module-level `configCache`.  The cache is populated by `loadConfig` when the
module is imported and is non-null from then on, so the lazy reload branch
of the source is dead and the cache argument is exactly the value loaded at
startup. -/
def getConnectionString (cache : DatabaseConfig) (name : String) : Option String :=
  if name != "" && jsStartsWith name "postgresql://" then some name
  else if name == "" && jsTruthyOptStr cache.dflt then
    jsOrNone (assocGet cache.connections (cache.dflt.getD ""))
  else
    jsOrNone (assocGet cache.connections (jsToLower name))

/-- Embedding of the separate `loadConfig` of tools/connections.ts: no
lowercasing, the `default` entry is kept whenever it is a truthy string, and
there is no `PG_CONNECTION_STRING` fallback. -/
def loadConfigTools (env : PgEnv) : DatabaseConfig :=
  match env.pgDbMap with
  | some fields =>
    let conns := fields.foldl (fun acc kv =>
      match kv.2 with
      | JVal.str v => if kv.1 ≠ "default" then assocSet acc kv.1 v else acc
      | _ => acc) ([] : List (String × String))
    match assocGet fields "default" with
    | some (JVal.str d) => ⟨conns, if d ≠ "" then some d else none⟩
    | _ => ⟨conns, none⟩
  | none => ⟨[], none⟩

/-- Embedding of `saveConfig` from tools/connections.ts: serializes the
`{connections, default}` record back into the in-memory `PG_DB_MAP`
environment variable (a nested object, not the flat shape `loadConfig`
reads) and never touches config.ts's `configCache`. -/
def saveConfig (cfg : DatabaseConfig) (env : PgEnv) : PgEnv :=
  { env with pgDbMap := some (
      [("connections", JVal.obj (cfg.connections.map (fun kv => (kv.1, JVal.str kv.2)))),
       ("default", (match cfg.dflt with | some d => JVal.str d | none => JVal.null))]) }

/-- The `ConnectionResult` envelope of tools/connections.ts (details elided). -/
structure ConnectionResult where
  success : Bool
  message : String
  deriving DecidableEq, Repr

/-- Embedding of `addDatabaseConnection` from tools/connections.ts. -/
def addDatabaseConnection (env : PgEnv) (name connectionString : String) :
    PgEnv × ConnectionResult :=
  let cfg := loadConfigTools env
  let cfg1 : DatabaseConfig :=
    { cfg with connections := assocSet cfg.connections name connectionString }
  let cfg2 := if jsTruthyOptStr cfg1.dflt then cfg1 else { cfg1 with dflt := some name }
  (saveConfig cfg2 env,
   { success := true, message := "Added database connection \"" ++ name ++ "\"" })

/-- The PostgreSQL server process state relevant to configuration: the
mutable environment and config.ts's module-level `configCache`, set once at
module import. -/
structure PgProcess where
  env : PgEnv
  configCache : DatabaseConfig

/-- Process startup: the config module is imported and `configCache` is
populated from the environment. -/
def pgStart (env0 : PgEnv) : PgProcess := ⟨env0, loadConfig env0⟩

/-- Run a sequence of `addDatabaseConnection` tool calls against the process. -/
def runAdds (p : PgProcess) (adds : List (String × String)) : PgProcess :=
  adds.foldl (fun p kv => { p with env := (addDatabaseConnection p.env kv.1 kv.2).1 }) p

/-! ### PostgreSQL connection adapter (src/postgresql-mcp/build/utils/connection.js) -/

/-- The `DatabaseConnection` singleton state together with the module-level
`poolCache`.  Pool and client objects are represented by identities drawn
from the counters `nextPool` and `nextClient`, so reference equality of pool
objects is equality of these identities; `ended` records every pool on which
`pool.end()` has been called. -/
structure ConnState where
  pool : Option Nat
  client : Option Nat
  connectionString : String
  cache : List (String × Nat)
  nextPool : Nat
  nextClient : Nat
  ended : List Nat
  deriving DecidableEq, Repr

/-- The state of a freshly created `DatabaseConnection` with an empty pool cache. -/
def initialConnState : ConnState := ⟨none, none, "", [], 0, 0, []⟩

/-- Deletion from the pool cache, modelling `poolCache.delete(k)`. -/
def cacheDelete (m : List (String × Nat)) (k : String) : List (String × Nat) :=
  m.filter (fun e => !(e.1 == k))

/-- Embedding of `DatabaseConnection.disconnect`: release the leased client
and clear the connection string; the pool is deliberately not ended (the
source keeps it for reuse) and the cache entry is kept. -/
def DCdisconnect (st : ConnState) : ConnState :=
  { st with client := none, connectionString := "" }

/-- The outcome of `DatabaseConnection.connect`. -/
inductive ConnectOutcome where
  | ok (st : ConnState)
  | error (message : String) (st : ConnState)

/-- The catch block of `connect`: release any leased client, delete the pool
cached under the current `connectionString`, end the pool, and rethrow. -/
def connectCatch (st : ConnState) (msg : String) : ConnectOutcome :=
  let st1 := { st with client := none }
  match st1.pool with
  | none => .error ("Failed to connect to database: " ++ msg) st1
  | some p => .error ("Failed to connect to database: " ++ msg)
      { st1 with cache := cacheDelete st1.cache st1.connectionString
                 ended := p :: st1.ended
                 pool := none }

/-- Embedding of `DatabaseConnection.connect`.  `cfg` is config.ts's
`configCache` through which names are resolved, and `acquireOk` is the
outcome of leasing a client from the pool and running the test query. -/
def DCconnect (cfg : DatabaseConfig) (acquireOk : Bool)
    (connectionStringOrName : String) (st : ConnState) : ConnectOutcome :=
  match getConnectionString cfg connectionStringOrName with
  | none => connectCatch st
      ("Connection \"" ++ connectionStringOrName ++ "\" not found and no default connection available")
  | some acs =>
    if st.pool.isSome && st.connectionString == acs then .ok st
    else
      let st1 := if st.pool.isSome then DCdisconnect st else st
      let st2 := { st1 with connectionString := acs }
      let st3 :=
        match assocGet st2.cache acs with
        | some p => { st2 with pool := some p }
        | none =>
          { st2 with pool := some st2.nextPool
                     cache := st2.cache ++ [(acs, st2.nextPool)]
                     nextPool := st2.nextPool + 1 }
      if acquireOk then
        .ok { st3 with client := some st3.nextClient, nextClient := st3.nextClient + 1 }
      else connectCatch st3 "client acquisition failed"

/-! ### n8n client (src/n8n-mcp/src/utils/n8nClient.ts) -/

/-- Environment variables read by the n8n server. -/
structure N8nEnv where
  n8nBaseUrl : Option String
  n8nApiKey : Option String
  deriving DecidableEq, Repr

/-- The `N8nClientError` class: a message plus the optional HTTP status. -/
structure N8nClientError where
  message : String
  status : Option Nat
  deriving DecidableEq, Repr

/-- The constructed axios client state: base URL and the API key placed in
the default `X-N8N-API-KEY` header. -/
structure N8nClient where
  baseURL : String
  apiKey : String
  deriving DecidableEq, Repr

/-- Embedding of the `N8nClient` constructor: reads `N8N_BASE_URL` and
`N8N_API_KEY` (empty-string default) and throws `N8nClientError` when either
is falsy; otherwise creates the axios instance carrying the API key header. -/
def N8nClient.create (env : N8nEnv) : Except N8nClientError N8nClient :=
  let baseURL := env.n8nBaseUrl.getD ""
  let apiKey := env.n8nApiKey.getD ""
  if baseURL = "" ∨ apiKey = "" then
    .error ⟨"Missing n8n configuration. Please set N8N_BASE_URL and N8N_API_KEY environment variables.", none⟩
  else .ok ⟨baseURL, apiKey⟩

/-- The default headers of the axios instance created by the constructor. -/
def N8nClient.headers (c : N8nClient) : List (String × String) :=
  [("Content-Type", "application/json"), ("X-N8N-API-KEY", c.apiKey)]

/-- The data carried by a failed axios call: whether it is an axios error,
the HTTP status and `data.message` of the upstream response when one was
received, and the error's own message. -/
structure AxiosFailure where
  isAxiosError : Bool
  responseStatus : Option Nat
  responseMessage : Option String
  message : String
  deriving DecidableEq, Repr

/-- The full runtime error value reaching `handleApiError`: the failure data
together with the request `config.headers` that axios attaches to the error
(including the `X-N8N-API-KEY` header set at client construction). -/
structure AxiosErrorValue where
  failure : AxiosFailure
  configHeaders : List (String × String)
  deriving DecidableEq, Repr

/-- Rendering of the error value by `console.error`/Node `util.inspect`:
nested objects down to the default depth are expanded and primitive values
such as header strings at that depth are printed in full, so the request
headers appear verbatim in the rendered text. -/
def renderAxiosError (e : AxiosErrorValue) : String :=
  "AxiosError: " ++ e.failure.message ++ " config: headers: " ++
    String.intercalate ", " (e.configHeaders.map (fun kv => kv.1 ++ ": " ++ kv.2)) ++
    (match e.failure.responseStatus with
     | some s => " response: status: " ++ toString s
     | none => "")

/-- The `status` local of `handleApiError`: `error.response?.status || 500`. -/
def httpStatusOf (f : AxiosFailure) : Nat :=
  match f.responseStatus with
  | some s => if s = 0 then 500 else s
  | none => 500

/-- The error thrown by `handleApiError`: HTTP 401/403 becomes the
authentication-failed message, 404 the not-found message, and anything else
the caller message plus the upstream message, carrying the status. -/
def translateApiError (f : AxiosFailure) (message : String) : N8nClientError :=
  if f.isAxiosError then
    if httpStatusOf f = 401 ∨ httpStatusOf f = 403 then
      ⟨"Authentication failed. Please check your API key.", some (httpStatusOf f)⟩
    else if httpStatusOf f = 404 then
      ⟨"Resource not found. Please check the ID.", some (httpStatusOf f)⟩
    else
      ⟨message ++ ": " ++
        (match f.responseMessage with
         | some m => if m = "" then f.message else m
         | none => f.message), some (httpStatusOf f)⟩
  else
    ⟨message ++ ": " ++ (if f.message = "" then "Unknown error" else f.message), none⟩

/-- Embedding of `N8nClient.handleApiError`: logs the raw error value with
`console.error` and throws the translated error.  Returns the thrown error
and the logged line. -/
def handleApiError (error : AxiosErrorValue) (message : String) :
    N8nClientError × String :=
  (translateApiError error.failure message, "API Error: " ++ renderAxiosError error)

/-- One remote call through the axios instance: on failure the error
(carrying this client's request headers) is passed to `handleApiError` and
the translated error is thrown; the logged lines are collected. -/
def N8nClient.call (c : N8nClient) (remote : Except AxiosFailure JVal)
    (message : String) : Except N8nClientError JVal × List String :=
  match remote with
  | .ok v => (.ok v, [])
  | .error f =>
    let r := handleApiError ⟨f, c.headers⟩ message
    (.error r.1, [r.2])

/-! ### n8n tool functions (src/n8n-mcp/src/tools/workflows.ts) -/

/-- Tool function `listWorkflows`: constructs a client and forwards; note
there is no try/catch here, so a client failure propagates to the caller. -/
def listWorkflows (env : N8nEnv) (remote : Except AxiosFailure JVal) :
    Except N8nClientError JVal × List String :=
  match N8nClient.create env with
  | .error e => (.error e, [])
  | .ok c => c.call remote "Failed to list workflows"

/-- Tool function `getWorkflow`. -/
def getWorkflow (env : N8nEnv) (id : String) (remote : Except AxiosFailure JVal) :
    Except N8nClientError JVal × List String :=
  match N8nClient.create env with
  | .error e => (.error e, [])
  | .ok c => c.call remote ("Failed to get workflow with ID: " ++ id)

/-- Tool function `activateWorkflow`. -/
def activateWorkflow (env : N8nEnv) (id : String) (remote : Except AxiosFailure JVal) :
    Except N8nClientError JVal × List String :=
  match N8nClient.create env with
  | .error e => (.error e, [])
  | .ok c => c.call remote ("Failed to activate workflow with ID: " ++ id)

/-- Tool function `deactivateWorkflow`. -/
def deactivateWorkflow (env : N8nEnv) (id : String) (remote : Except AxiosFailure JVal) :
    Except N8nClientError JVal × List String :=
  match N8nClient.create env with
  | .error e => (.error e, [])
  | .ok c => c.call remote ("Failed to deactivate workflow with ID: " ++ id)

/-- Tool function `executeWorkflow`. -/
def executeWorkflow (env : N8nEnv) (id : String) (remote : Except AxiosFailure JVal) :
    Except N8nClientError JVal × List String :=
  match N8nClient.create env with
  | .error e => (.error e, [])
  | .ok c => c.call remote ("Failed to execute workflow with ID: " ++ id)

/-- Tool function `listWorkflowExecutions`. -/
def listWorkflowExecutions (env : N8nEnv) (id : String) (remote : Except AxiosFailure JVal) :
    Except N8nClientError JVal × List String :=
  match N8nClient.create env with
  | .error e => (.error e, [])
  | .ok c => c.call remote ("Failed to list executions for workflow with ID: " ++ id)

/-- Tool function `getExecution`. -/
def getExecution (env : N8nEnv) (id : String) (remote : Except AxiosFailure JVal) :
    Except N8nClientError JVal × List String :=
  match N8nClient.create env with
  | .error e => (.error e, [])
  | .ok c => c.call remote ("Failed to get execution with ID: " ++ id)

/-! ### n8n dispatcher (the compiled server's handleTool switch) -/

/-- Protocol error codes used by the dispatcher. -/
inductive McpErrorCode where
  | invalidRequest
  | internalError
  deriving DecidableEq, Repr

/-- The protocol-level `McpError`. -/
structure McpError where
  message : String
  code : McpErrorCode
  deriving DecidableEq, Repr

/-- The tool names registered by the n8n server. -/
def n8nToolNames : List String :=
  ["mcp_list_workflows", "mcp_get_workflow", "mcp_activate_workflow",
   "mcp_deactivate_workflow", "mcp_execute_workflow",
   "mcp_list_workflow_executions", "mcp_get_execution"]

/-- The dispatcher's catch block: an `McpError` is rethrown as-is, while a
tool-function exception is wrapped into an internal-error `McpError`. -/
def wrapToolOutcome (name : String) (r : Except N8nClientError JVal × List String) :
    Except McpError JVal :=
  match r.1 with
  | .ok v => .ok v
  | .error e => .error ⟨"Error executing tool " ++ name ++ ": " ++ e.message, .internalError⟩

/-- Embedding of the `handleTool` switch of the compiled n8n server: routes
by exact name to the tool function, wraps a propagated tool exception into
an internal-error `McpError`, and throws the distinct unknown-tool
`McpError` (InvalidRequest) for any other name.  The second component is
the list of tool functions actually invoked. -/
def handleTool (env : N8nEnv) (name id : String) (remote : Except AxiosFailure JVal) :
    Except McpError JVal × List String :=
  if name = "mcp_list_workflows" then (wrapToolOutcome name (listWorkflows env remote), [name])
  else if name = "mcp_get_workflow" then (wrapToolOutcome name (getWorkflow env id remote), [name])
  else if name = "mcp_activate_workflow" then (wrapToolOutcome name (activateWorkflow env id remote), [name])
  else if name = "mcp_deactivate_workflow" then (wrapToolOutcome name (deactivateWorkflow env id remote), [name])
  else if name = "mcp_execute_workflow" then (wrapToolOutcome name (executeWorkflow env id remote), [name])
  else if name = "mcp_list_workflow_executions" then (wrapToolOutcome name (listWorkflowExecutions env id remote), [name])
  else if name = "mcp_get_execution" then (wrapToolOutcome name (getExecution env id remote), [name])
  else (.error ⟨"Unknown tool: " ++ name, .invalidRequest⟩, [])

/-! ### Server startup and process-level handlers
(the n8n server entry point and src/gemini-image-mcp/src/index.ts) -/

/-- The observable outcome of running a server's startup sequence. -/
inductive StartupOutcome where
  | started
  | exited (code : Nat) (logs : List String)
  deriving DecidableEq, Repr

/-- Embedding of the n8n server startup: it logs and connects the transport
without examining `N8N_BASE_URL`/`N8N_API_KEY` at all; it exits with code 1
only when connecting the transport itself fails. -/
def n8nStartup (_env : N8nEnv) (transportOk : Bool) : StartupOutcome :=
  if transportOk then .started
  else .exited 1 ["Failed to start server: transport error"]

/-- Environment variables read by the gemini-image server. -/
structure GeminiEnv where
  geminiApiKey : Option String
  deriving DecidableEq, Repr

/-- Embedding of `validateEnvironment` from gemini config.ts: throws when
`GEMINI_API_KEY` is unset or blank after trimming. -/
def validateEnvironment (env : GeminiEnv) : Except String Unit :=
  let apiKey := env.geminiApiKey.getD ""
  if apiKey = "" ∨ jsTrim apiKey = "" then
    .error ("Missing required environment variable: GEMINI_API_KEY. " ++
      "Please set your Google Gemini API key in the environment.")
  else .ok ()

/-- Embedding of the gemini-image server startup: `validateEnvironment` runs
first and a failure exits the process with code 1, logging the error message
and a line naming `GEMINI_API_KEY`, before the server is even constructed. -/
def geminiStartup (env : GeminiEnv) (transportOk : Bool) : StartupOutcome :=
  match validateEnvironment env with
  | .error m => .exited 1
      ["Environment validation failed: " ++ m,
       "Please ensure GEMINI_API_KEY environment variable is set"]
  | .ok _ =>
    if transportOk then .started
    else .exited 1 ["Failed to start server: transport error"]

/-- The observable effect of a process-level event handler: lines written to
the diagnostic stream and the exit code if the handler terminates the
process. -/
structure HandlerEffect where
  logs : List String
  exitCode : Option Nat
  deriving DecidableEq, Repr

/-- The n8n server's `uncaughtException` handler: logs only. -/
def n8nUncaughtExceptionHandler (error : String) : HandlerEffect :=
  ⟨["Uncaught Exception: " ++ error], none⟩

/-- The n8n server's `unhandledRejection` handler: logs only. -/
def n8nUnhandledRejectionHandler (reason : String) : HandlerEffect :=
  ⟨["Unhandled Promise Rejection: " ++ reason], none⟩

/-- The gemini server's `uncaughtException` handler: logs the error and its
stack, then calls `process.exit(1)`. -/
def geminiUncaughtExceptionHandler (error stack : String) : HandlerEffect :=
  ⟨["Uncaught Exception: " ++ error, "Stack: " ++ stack], some 1⟩

/-- The gemini server's `unhandledRejection` handler: logs the rejection,
then calls `process.exit(1)`. -/
def geminiUnhandledRejectionHandler (reason : String) : HandlerEffect :=
  ⟨["Unhandled Promise Rejection at:", "Reason: " ++ reason], some 1⟩

/-! ### Gemini image generation tool (src/gemini-image-mcp/src/tools/imageGeneration.ts) -/

/-- JavaScript `s.includes(sub)` (substring containment). -/
def strContains (s sub : String) : Bool := decide (sub.toList <:+: s.toList)

/-- A character matched by the `[\w\-\/]` class of the allowed-path regexes. -/
def wordPathChar (c : Char) : Bool :=
  c.isAlphanum || c == '_' || c == '-' || c == '/'

/-- The regex `^\.\/[\w\-\/]+$` (relative paths starting with `./`). -/
def matchesRelPathPattern (p : String) : Bool :=
  match p.toList with
  | '.' :: '/' :: rest => !rest.isEmpty && rest.all wordPathChar
  | _ => false

/-- The regex `^[\w\-\/]+$` (simple paths). -/
def matchesSimplePathPattern (p : String) : Bool :=
  !p.toList.isEmpty && p.toList.all wordPathChar

/-- Embedding of `validatePrompt` (MIN_PROMPT_LENGTH 1, MAX_PROMPT_LENGTH 2000). -/
def validatePrompt (prompt : String) : Except String Unit :=
  if prompt = "" then .error "Prompt must be a non-empty string"
  else
    let trimmedPrompt := jsTrim prompt
    if trimmedPrompt.length < 1 then
      .error "Prompt must be at least 1 characters long"
    else if trimmedPrompt.length > 2000 then
      .error "Prompt must not exceed 2000 characters"
    else .ok ()

/-- Embedding of `validateOutputPath` (VALIDATE_OUTPUT_PATH is true and both
allowed patterns are configured). -/
def validateOutputPath (path : String) : Except String Unit :=
  if strContains path ".." then
    .error "Output path cannot contain \"..\" (directory traversal not allowed)"
  else if !(matchesRelPathPattern path || matchesSimplePathPattern path) then
    .error ("Output path does not match allowed patterns. " ++
      "Use relative paths like \"./my-folder\" or simple paths without \"..\"")
  else .ok ()

/-- Embedding of `validateImageSize`. -/
def validateImageSize (size : String) : Except String Unit :=
  if size = "256" ∨ size = "512" ∨ size = "1K" ∨ size = "2K" ∨ size = "4K" then .ok ()
  else .error ("Invalid image size: " ++ size ++ ". Must be one of: 256, 512, 1K, 2K, 4K")

/-- Embedding of `validateModalities`. -/
def validateModalities (modalities : List String) : Except String Unit :=
  if modalities.isEmpty then .error "At least one response modality must be specified"
  else
    match modalities.find? (fun m => !(m == "IMAGE" || m == "TEXT")) with
    | some m => .error ("Invalid response modality: " ++ m ++ ". Must be one of: IMAGE, TEXT")
    | none => .ok ()

/-- Parameters of the `generate_image` tool. -/
structure GenerateImageToolParams where
  prompt : String
  outputPath : Option String
  fileName : Option String
  imageSize : Option String
  responseModalities : Option (List String)
  deriving DecidableEq, Repr

/-- A file produced by the Gemini client. -/
structure GenFile where
  path : String
  fileName : String
  mimeType : String
  size : Nat
  deriving DecidableEq, Repr

/-- The result returned by `GeminiClient.generateImage`. -/
structure ClientGenResult where
  success : Bool
  files : List GenFile
  textResponse : Option String
  prompt : String
  deriving DecidableEq, Repr

/-- The envelope returned by the `generateImage` tool function. -/
structure GenerateImageResult where
  success : Bool
  message : String
  error : Option String
  files : List GenFile
  deriving DecidableEq, Repr

/-- Embedding of the `generateImage` tool function: validations and the
client call run inside one try/catch whose catch returns a structured
`success := false` object; `clientOutcome` is the combined outcome of
constructing the Gemini client and calling it (either can throw). -/
def generateImage (params : GenerateImageToolParams)
    (clientOutcome : Except String ClientGenResult) : GenerateImageResult :=
  let failure := fun (e : String) =>
    ({ success := false, message := "Failed to generate image", error := some e,
       files := [] } : GenerateImageResult)
  match validatePrompt params.prompt with
  | .error e => failure e
  | .ok _ =>
  match (match params.outputPath with
         | some p => validateOutputPath p
         | none => .ok ()) with
  | .error e => failure e
  | .ok _ =>
  match (match params.imageSize with
         | some s => validateImageSize s
         | none => .ok ()) with
  | .error e => failure e
  | .ok _ =>
  match (match params.responseModalities with
         | some ms => validateModalities ms
         | none => .ok ()) with
  | .error e => failure e
  | .ok _ =>
  match clientOutcome with
  | .error e => failure e
  | .ok result =>
    { success := result.success
      message := "Successfully generated " ++ toString result.files.length ++ " image(s)"
      error := none
      files := result.files }

/-! ## Lemmas and claim theorems -/

lemma jsIsWhiteSpace_eq_true_iff (c : Char) :
    jsIsWhiteSpace c = true ↔
      c.toNat = 0x9 ∨ c.toNat = 0xB ∨ c.toNat = 0xC ∨ c.toNat = 0x20 ∨
      c.toNat = 0xA0 ∨ c.toNat = 0xFEFF ∨ c.toNat = 0xA ∨ c.toNat = 0xD ∨
      c.toNat = 0x2028 ∨ c.toNat = 0x2029 ∨ c.toNat = 0x1680 ∨
      (0x2000 ≤ c.toNat ∧ c.toNat ≤ 0x200A) ∨ c.toNat = 0x202F ∨
      c.toNat = 0x205F ∨ c.toNat = 0x3000 := by
  simp only [jsIsWhiteSpace, Bool.or_eq_true, Bool.and_eq_true, decide_eq_true_iff, beq_iff_eq]
  tauto

/-- Whitespace code points are untouched by lowercasing. -/
lemma lowerChar_of_ws {c : Char} (h : jsIsWhiteSpace c = true) : lowerChar c = c := by
  rw [jsIsWhiteSpace_eq_true_iff] at h
  unfold lowerChar
  rw [if_neg]
  omega

/-- Splitting a list into its trailing-whitespace-trimmed part and the
trailing whitespace itself. -/
lemma trimEndL_append (l : List Char) :
    l = trimEndL l ++ (l.reverse.takeWhile jsIsWhiteSpace).reverse := by
  unfold trimEndL
  rw [← List.reverse_append, List.takeWhile_append_dropWhile, List.reverse_reverse]

lemma mem_trailing_ws {l : List Char} {c : Char}
    (h : c ∈ (l.reverse.takeWhile jsIsWhiteSpace).reverse) : jsIsWhiteSpace c = true := by
  rw [List.mem_reverse] at h
  exact List.mem_takeWhile_imp h

/-- A nonempty pattern containing no whitespace is a prefix of `X ++ tw`
(with `tw` all whitespace) iff it is a prefix of `X`. -/
lemma isPrefix_append_ws_iff (sel X tw : List Char)
    (hsel : ∀ c ∈ sel, jsIsWhiteSpace c = false)
    (htw : ∀ c ∈ tw, jsIsWhiteSpace c = true) :
    sel <+: (X ++ tw) ↔ sel <+: X := by
  by_cases hlen : sel.length ≤ X.length
  · exact List.isPrefix_append_of_length hlen
  · constructor
    · intro h
      -- X is a proper prefix of sel, so sel must contain a whitespace char from tw
      have hX : X <+: sel :=
        List.prefix_of_prefix_length_le (List.prefix_append X tw) h (by omega)
      obtain ⟨s, hs⟩ := hX
      have hsne : s ≠ [] := by
        intro hnil
        subst hnil
        rw [List.append_nil] at hs
        apply hlen
        rw [hs]
      obtain ⟨c, t, hct⟩ := List.exists_cons_of_ne_nil hsne
      subst hct
      have hstw : (c :: t) <+: tw := by
        have h' : X ++ c :: t <+: X ++ tw := hs ▸ h
        exact (List.prefix_append_right_inj X).mp h'
      have hctw : c ∈ tw := hstw.subset (List.mem_cons_self c t)
      have hcsel : c ∈ sel := by
        rw [← hs]
        exact List.mem_append_right X (List.mem_cons_self c t)
      have := hsel c hcsel
      rw [htw c hctw] at this
      exact absurd this (by simp)
    · intro h
      exact h.trans (List.prefix_append X tw)

/-- The read-only guard computed on a fully trimmed query coincides with the
guard computed after trimming only leading whitespace: trailing whitespace
cannot affect whether the lowercased text starts with `"select"`. -/
lemma selectGuard_trim_eq (q : String) :
    jsStartsWith (jsToLower (jsTrim q)) "select" =
      jsStartsWith (jsToLower (jsTrimStart q)) "select" := by
  unfold jsStartsWith jsToLower jsTrim jsTrimStart
  show ("select".toList.isPrefixOf ((trimEndL (trimStartL q.toList)).map lowerChar)) =
    ("select".toList.isPrefixOf ((trimStartL q.toList).map lowerChar))
  set u := trimStartL q.toList with hu
  have hsplit := trimEndL_append u
  set tw := (u.reverse.takeWhile jsIsWhiteSpace).reverse with htw
  have hmap : u.map lowerChar = (trimEndL u).map lowerChar ++ tw := by
    conv_lhs => rw [hsplit]
    rw [List.map_append]
    congr 1
    have hid : tw.map lowerChar = tw.map id :=
      List.map_congr_left (fun c hc => lowerChar_of_ws (mem_trailing_ws (htw ▸ hc)))
    rw [hid, List.map_id]
  rw [Bool.eq_iff_iff]
  rw [ List.isPrefixOf_iff_prefix, List.isPrefixOf_iff_prefix, hmap]
  exact (isPrefix_append_ws_iff "select".toList ((trimEndL u).map lowerChar) tw
    (by decide) (fun c hc => mem_trailing_ws (htw ▸ hc))).symm

/-- C1: for every query string `q`, `executeQuery` rejects `q` with a failure
result whenever `q` does not lexically start with the case-insensitive token
`"select"` after trimming leading whitespace, and in that case no adapter
call (`connect` or `query`) is made; a query that does start with `"select"`
(case-insensitive, leading whitespace trimmed) proceeds to the adapter. -/
theorem C1_executeQuery_select_guard (cs q : String) (ps : List String)
    (cr : Except String Unit) (qr : Except String (List (List String))) :
    (jsStartsWith (jsToLower (jsTrimStart q)) "select" = false →
      (executeQuery cs q ps cr qr).1.success = false ∧
      (executeQuery cs q ps cr qr).2 = []) ∧
    (jsStartsWith (jsToLower (jsTrimStart q)) "select" = true →
      ∃ rest, (executeQuery cs q ps cr qr).2 = AdapterCall.connect cs :: rest) := by
  constructor
  · intro h
    unfold executeQuery
    rw [selectGuard_trim_eq, h]
    simp
  · intro h
    unfold executeQuery
    rw [selectGuard_trim_eq, h]
    simp only [Bool.true_eq_false, if_false]
    cases cr with
    | error e => exact ⟨[.disconnect], rfl⟩
    | ok u =>
      cases qr with
      | error e => exact ⟨[.query q ps, .disconnect], rfl⟩
      | ok rows => exact ⟨[.query q ps, .disconnect], rfl⟩

/-- C1 witness: `"DROP TABLE x"` is rejected with no adapter call, while
`"  SELECT 1"` proceeds to the adapter. -/
theorem C1_executeQuery_select_guard_witness :
    ((executeQuery "conn" "DROP TABLE x" [] (.ok ()) (.ok [])).1.success = false ∧
      (executeQuery "conn" "DROP TABLE x" [] (.ok ()) (.ok [])).2 = []) ∧
    (∃ rest, (executeQuery "conn" "  SELECT 1" [] (.ok ()) (.ok [])).2 =
      AdapterCall.connect "conn" :: rest) :=
  ⟨(C1_executeQuery_select_guard "conn" "DROP TABLE x" [] (.ok ()) (.ok [])).1 (by decide),
   (C1_executeQuery_select_guard "conn" "  SELECT 1" [] (.ok ()) (.ok [])).2 (by decide)⟩

lemma runAdds_configCache (adds : List (String × String)) (p : PgProcess) :
    (runAdds p adds).configCache = p.configCache := by
  induction adds generalizing p with
  | nil => rfl
  | cons a t ih => exact ih _

/-- C9 counterexample: with `PG_DB_MAP` naming a default connection `"db"`,
the name `""` does not begin with `postgresql://` and is absent from the
initially loaded configuration, and `addDatabaseConnection` for it succeeds,
yet `getConnectionString ""` afterwards returns the default connection
string rather than null (the empty name takes the default branch), so the
claim as stated is false. -/
theorem C9_counterexample :
    jsStartsWith "" "postgresql://" = false ∧
    assocGet (loadConfig ⟨some [("db", JVal.str "postgresql://x"),
      ("default", JVal.str "db")], none⟩).connections "" = none ∧
    (addDatabaseConnection (pgStart ⟨some [("db", JVal.str "postgresql://x"),
      ("default", JVal.str "db")], none⟩).env "" "postgresql://y").2.success = true ∧
    getConnectionString (runAdds (pgStart ⟨some [("db", JVal.str "postgresql://x"),
      ("default", JVal.str "db")], none⟩) [("", "postgresql://y")]).configCache ""
      = some "postgresql://x" := by
  decide

/-- C9 (amended): `getConnectionString` reads a configuration cache populated
once at module initialization and never refreshed: for every nonempty name
`n` that does not begin with `postgresql://` and whose lowercased form is
absent from the initially loaded configuration (whose keys are stored
lowercased), `getConnectionString n` returns null for the remainder of the
process, even after a successful `addDatabaseConnection n s` call (followed
by any further additions) has written `n` into the in-memory `PG_DB_MAP`
environment variable. -/
theorem C9_configCache_stale (env0 : PgEnv) (n s : String) (adds : List (String × String))
    (h1 : jsStartsWith n "postgresql://" = false) (h2 : n ≠ "")
    (h3 : jsOrNone (assocGet (loadConfig env0).connections (jsToLower n)) = none) :
    (addDatabaseConnection (pgStart env0).env n s).2.success = true ∧
    getConnectionString (runAdds (pgStart env0) ((n, s) :: adds)).configCache n = none := by
  refine ⟨rfl, ?_⟩
  rw [runAdds_configCache]
  show getConnectionString (loadConfig env0) n = none
  unfold getConnectionString
  rw [if_neg, if_neg]
  · exact h3
  · rw [Bool.and_eq_true]
    rintro ⟨hn, -⟩
    exact h2 (by simpa using hn)
  · rw [Bool.and_eq_true]
    rintro ⟨-, hsw⟩
    rw [h1] at hsw
    exact Bool.false_ne_true hsw

/-- C9 amended-claim witness at a concrete configuration. -/
theorem C9_configCache_stale_witness :
    (addDatabaseConnection (pgStart ⟨some [("db", JVal.str "postgresql://x")], none⟩).env
      "missing" "postgresql://y").2.success = true ∧
    getConnectionString (runAdds (pgStart ⟨some [("db", JVal.str "postgresql://x")], none⟩)
      [("missing", "postgresql://y"), ("other", "postgresql://z")]).configCache "missing"
      = none :=
  C9_configCache_stale ⟨some [("db", JVal.str "postgresql://x")], none⟩
    "missing" "postgresql://y" [("other", "postgresql://z")]
    (by decide) (by decide) (by decide)

/-- C10: for every input string `s` beginning with `postgresql://`,
`getConnectionString` returns `s` verbatim, for every state of the
named-connection configuration cache (so the map is never consulted). -/
theorem C10_raw_connection_string (cache : DatabaseConfig) (s : String)
    (h : jsStartsWith s "postgresql://" = true) :
    getConnectionString cache s = some s := by
  have hs : s ≠ "" := by
    intro he
    subst he
    exact absurd h (by decide)
  unfold getConnectionString
  rw [if_pos]
  rw [Bool.and_eq_true, h]
  exact ⟨by simpa using hs, rfl⟩

/-- C10 witness: a raw connection string not present in the configured map
is returned verbatim. -/
theorem C10_raw_connection_string_witness :
    getConnectionString ⟨[("db", "postgresql://other")], some "db"⟩
      "postgresql://localhost/mydb" = some "postgresql://localhost/mydb" :=
  C10_raw_connection_string ⟨[("db", "postgresql://other")], some "db"⟩
    "postgresql://localhost/mydb" (by decide)

/-- C2: the sequence connect("conn-a"), connect("conn-b"), connect("conn-a")
(all succeeding) makes the third call reuse the very pool object created by
the first call (same identity, and no new pool instance is created by the
third call); connecting with the different string releases the leased client
but neither removes from the cache nor ends the pool of the first string. -/
theorem C2_pool_identity_reuse (cfg : DatabaseConfig) (csa csb : String)
    (ha : getConnectionString cfg "conn-a" = some csa)
    (hb : getConnectionString cfg "conn-b" = some csb)
    (hne : csa ≠ csb) :
    ∃ st1 st2 st3 : ConnState,
      DCconnect cfg true "conn-a" initialConnState = .ok st1 ∧
      DCconnect cfg true "conn-b" st1 = .ok st2 ∧
      DCconnect cfg true "conn-a" st2 = .ok st3 ∧
      st1.pool = some 0 ∧
      st2.pool ≠ st1.pool ∧
      st2.client ≠ st1.client ∧
      assocGet st2.cache csa = some 0 ∧
      st2.ended = [] ∧
      st3.pool = some 0 ∧
      st3.nextPool = st2.nextPool ∧
      st3.ended = [] := by
  have hab : (csa == csb) = false := by
    simpa using hne
  have hba : (csb == csa) = false := by
    simpa using (Ne.symm hne)
  refine ⟨⟨some 0, some 0, csa, [(csa, 0)], 1, 1, []⟩,
          ⟨some 1, some 1, csb, [(csa, 0), (csb, 1)], 2, 2, []⟩,
          ⟨some 0, some 2, csa, [(csa, 0), (csb, 1)], 2, 3, []⟩,
          ?_, ?_, ?_, ?_, ?_, ?_, ?_, ?_, ?_, ?_, ?_⟩
  · simp [DCconnect, ha, initialConnState, assocGet]
  · simp [DCconnect, hb, DCdisconnect, assocGet, hab]
  · simp [DCconnect, ha, DCdisconnect, assocGet, hba]
  · rfl
  · simp
  · simp
  · simp [assocGet]
  · rfl
  · rfl
  · rfl
  · rfl

/-- C2 witness at a concrete two-entry configuration. -/
theorem C2_pool_identity_reuse_witness :
    ∃ st1 st2 st3 : ConnState,
      DCconnect ⟨[("conn-a", "postgresql://a"), ("conn-b", "postgresql://b")], none⟩
        true "conn-a" initialConnState = .ok st1 ∧
      DCconnect ⟨[("conn-a", "postgresql://a"), ("conn-b", "postgresql://b")], none⟩
        true "conn-b" st1 = .ok st2 ∧
      DCconnect ⟨[("conn-a", "postgresql://a"), ("conn-b", "postgresql://b")], none⟩
        true "conn-a" st2 = .ok st3 ∧
      st1.pool = some 0 ∧
      st2.pool ≠ st1.pool ∧
      st2.client ≠ st1.client ∧
      assocGet st2.cache "postgresql://a" = some 0 ∧
      st2.ended = [] ∧
      st3.pool = some 0 ∧
      st3.nextPool = st2.nextPool ∧
      st3.ended = [] :=
  C2_pool_identity_reuse
    ⟨[("conn-a", "postgresql://a"), ("conn-b", "postgresql://b")], none⟩
    "postgresql://a" "postgresql://b" (by decide) (by decide) (by decide)

/-! ### Claims C3 through C8 -/

/-- C3 counterexample: with `N8N_BASE_URL` and `N8N_API_KEY` both unset the
n8n server still starts and accepts requests (its startup performs no
configuration validation and does not exit), and the missing configuration
first surfaces mid-request, when a tool invocation constructs the client.
This refutes the claim that every server exits with code 1 at startup when
a required variable is absent. -/
theorem C3_counterexample :
    n8nStartup ⟨none, none⟩ true = .started ∧
    (listWorkflows ⟨none, none⟩ (.ok JVal.null)).1 = .error
      ⟨"Missing n8n configuration. Please set N8N_BASE_URL and N8N_API_KEY environment variables.",
       none⟩ :=
  ⟨rfl, rfl⟩

/-- C3 (amended): the gemini-image server exits with code 1 and a message
naming `GEMINI_API_KEY` when that variable is absent, before accepting any
request; the n8n server performs no startup configuration validation and
starts regardless, its missing `N8N_BASE_URL`/`N8N_API_KEY` first surfacing
as an error when a tool invocation constructs the client. -/
theorem C3_startup_validation (genv : GeminiEnv) (nenv : N8nEnv) (tOk : Bool)
    (remote : Except AxiosFailure JVal)
    (hg : genv.geminiApiKey = none) (hn : nenv.n8nApiKey = none) :
    geminiStartup genv tOk = .exited 1
      ["Environment validation failed: Missing required environment variable: GEMINI_API_KEY. Please set your Google Gemini API key in the environment.",
       "Please ensure GEMINI_API_KEY environment variable is set"] ∧
    "GEMINI_API_KEY".toList <:+:
      ("Environment validation failed: Missing required environment variable: GEMINI_API_KEY. Please set your Google Gemini API key in the environment.").toList ∧
    n8nStartup nenv true = .started ∧
    (listWorkflows nenv remote).1 = .error
      ⟨"Missing n8n configuration. Please set N8N_BASE_URL and N8N_API_KEY environment variables.",
       none⟩ := by
  refine ⟨?_, by decide, rfl, ?_⟩
  · unfold geminiStartup validateEnvironment
    rw [hg]
    rfl
  · unfold listWorkflows N8nClient.create
    rw [hn]
    simp

/-- C3 amended-claim witness at concrete empty environments. -/
theorem C3_startup_validation_witness :
    geminiStartup ⟨none⟩ true = .exited 1
      ["Environment validation failed: Missing required environment variable: GEMINI_API_KEY. Please set your Google Gemini API key in the environment.",
       "Please ensure GEMINI_API_KEY environment variable is set"] ∧
    "GEMINI_API_KEY".toList <:+:
      ("Environment validation failed: Missing required environment variable: GEMINI_API_KEY. Please set your Google Gemini API key in the environment.").toList ∧
    n8nStartup ⟨none, none⟩ true = .started ∧
    (listWorkflows ⟨none, none⟩ (.ok JVal.null)).1 = .error
      ⟨"Missing n8n configuration. Please set N8N_BASE_URL and N8N_API_KEY environment variables.",
       none⟩ :=
  C3_startup_validation ⟨none⟩ ⟨none, none⟩ true (.ok JVal.null) rfl rfl

/-- C4 counterexample: the n8n tool function `listWorkflows` has no
try/catch, so on a remote failure it propagates the client's exception to
its caller instead of returning a structured error object, refuting the
claim that every tool function returns a structured error rather than
throwing across the tool boundary. -/
theorem C4_counterexample :
    (listWorkflows ⟨some "http://localhost:5678", some "key"⟩
      (.error ⟨true, some 500, some "boom", "Request failed with status code 500"⟩)).1 =
    .error ⟨"Failed to list workflows: boom", some 500⟩ :=
  rfl

/-- C4 (amended): the PostgreSQL query tool and the gemini image tool catch
their failures and return structured `success := false` objects, but the n8n
workflow tool functions propagate the client's exception across the tool
boundary; the dispatcher catches it and converts it into a protocol-level
internal-error `McpError`, so the well-formed response is produced at the
dispatcher rather than by the tool function. -/
theorem C4_structured_errors (cs q : String) (ps : List String) (e1 e2 : String)
    (params : GenerateImageToolParams) (eg : String)
    (env : N8nEnv) (f : AxiosFailure) (id : String) (c : N8nClient)
    (hc : N8nClient.create env = .ok c) :
    (executeQuery cs q ps (.error e1) (.ok [])).1.success = false ∧
    (executeQuery cs q ps (.ok ()) (.error e2)).1.success = false ∧
    (generateImage params (.error eg)).success = false ∧
    (listWorkflows env (.error f)).1 =
      .error (handleApiError ⟨f, c.headers⟩ "Failed to list workflows").1 ∧
    (handleTool env "mcp_list_workflows" id (.error f)).1 =
      .error ⟨"Error executing tool " ++ "mcp_list_workflows" ++ ": " ++
        (handleApiError ⟨f, c.headers⟩ "Failed to list workflows").1.message,
        .internalError⟩ := by
  have hl : (listWorkflows env (.error f)).1 =
      .error (handleApiError ⟨f, c.headers⟩ "Failed to list workflows").1 := by
    unfold listWorkflows
    rw [hc]
    rfl
  refine ⟨?_, ?_, ?_, hl, ?_⟩
  · unfold executeQuery
    split
    · rfl
    · rfl
  · unfold executeQuery
    split
    · rfl
    · rfl
  · unfold generateImage
    rcases h1 : validatePrompt params.prompt with e | u
    · rfl
    · rcases h2 : (match params.outputPath with
                   | some p => validateOutputPath p
                   | none => Except.ok ()) with e | u
      · simp [h1, h2]
      · rcases h3 : (match params.imageSize with
                     | some s => validateImageSize s
                     | none => Except.ok ()) with e | u
        · simp [h1, h2, h3]
        · rcases h4 : (match params.responseModalities with
                       | some ms => validateModalities ms
                       | none => Except.ok ()) with e | u
          · simp [h1, h2, h3, h4]
          · simp [h1, h2, h3, h4]
  · unfold handleTool
    rw [if_pos rfl]
    unfold wrapToolOutcome
    rw [hl]

/-- C4 amended-claim witness at concrete inputs. -/
theorem C4_structured_errors_witness :
    (executeQuery "conn" "SELECT 1" [] (.error "connection refused") (.ok [])).1.success = false ∧
    (executeQuery "conn" "SELECT 1" [] (.ok ()) (.error "syntax error")).1.success = false ∧
    (generateImage ⟨"a red circle", none, none, none, none⟩ (.error "quota exceeded")).success = false ∧
    (listWorkflows ⟨some "http://localhost:5678", some "key"⟩
      (.error ⟨true, some 500, some "boom", "m"⟩)).1 =
      .error (handleApiError ⟨⟨true, some 500, some "boom", "m"⟩,
        N8nClient.headers ⟨"http://localhost:5678", "key"⟩⟩ "Failed to list workflows").1 ∧
    (handleTool ⟨some "http://localhost:5678", some "key"⟩ "mcp_list_workflows" ""
      (.error ⟨true, some 500, some "boom", "m"⟩)).1 =
      .error ⟨"Error executing tool " ++ "mcp_list_workflows" ++ ": " ++
        (handleApiError ⟨⟨true, some 500, some "boom", "m"⟩,
          N8nClient.headers ⟨"http://localhost:5678", "key"⟩⟩ "Failed to list workflows").1.message,
        .internalError⟩ :=
  C4_structured_errors "conn" "SELECT 1" [] "connection refused" "syntax error"
    ⟨"a red circle", none, none, none, none⟩ "quota exceeded"
    ⟨some "http://localhost:5678", some "key"⟩ ⟨true, some 500, some "boom", "m"⟩ ""
    ⟨"http://localhost:5678", "key"⟩ rfl

/-- C5: evaluating the n8n error translation at a concrete failed remote
call shows that the line logged by `handleApiError` (`console.error` of the
raw axios error value, whose `config.headers` carry `X-N8N-API-KEY`)
contains the API key verbatim, contradicting the requirement that
credentials appear in no logged text produced while translating a failure. -/
theorem C5_credential_in_log :
    (listWorkflows ⟨some "http://n8n.example", some "sk-test-secret-key"⟩
      (.error ⟨true, some 500, some "Internal server error",
        "Request failed with status code 500"⟩)).2.any
      (fun l => decide ("sk-test-secret-key".toList <:+: l.toList)) = true := by
  decide

/-- C6: error translation of a failed remote HTTP call: upstream status 401
or 403 yields the authentication-failed error, 404 yields the not-found
error, and any other status yields an error carrying the upstream status and
containing the upstream message. -/
theorem C6_error_translation (f : AxiosFailure) (headers : List (String × String))
    (message : String) (s : Nat)
    (hax : f.isAxiosError = true) (hst : f.responseStatus = some s) (hpos : 0 < s) :
    ((s = 401 ∨ s = 403) → (handleApiError ⟨f, headers⟩ message).1 =
      ⟨"Authentication failed. Please check your API key.", some s⟩) ∧
    (s = 404 → (handleApiError ⟨f, headers⟩ message).1 =
      ⟨"Resource not found. Please check the ID.", some s⟩) ∧
    (s ≠ 401 → s ≠ 403 → s ≠ 404 →
      (handleApiError ⟨f, headers⟩ message).1.status = some s ∧
      ∀ m, f.responseMessage = some m → m ≠ "" →
        m.toList <:+: (handleApiError ⟨f, headers⟩ message).1.message.toList) := by
  have hstat : httpStatusOf f = s := by
    unfold httpStatusOf
    rw [hst]
    exact if_neg (by omega)
  unfold handleApiError translateApiError
  dsimp only
  rw [hax, if_pos rfl, hstat]
  refine ⟨?_, ?_, ?_⟩
  · intro h
    rw [if_pos h]
  · intro h
    subst h
    rw [if_neg (by omega), if_pos rfl]
  · intro h1 h2 h3
    rw [if_neg (by omega), if_neg h3]
    refine ⟨rfl, ?_⟩
    intro m hm hmne
    rw [hm]
    simp only [if_neg hmne]
    refine ⟨(message ++ ": ").toList, [], ?_⟩
    rw [List.append_nil]
    show (message ++ ": ").toList ++ m.toList = (message ++ ": " ++ m).toList
    simp [String.toList]

/-- C6 witness covering the 401, 404 and other-status branches. -/
theorem C6_error_translation_witness :
    (handleApiError ⟨⟨true, some 401, none, "m"⟩, []⟩ "ctx").1 =
      ⟨"Authentication failed. Please check your API key.", some 401⟩ ∧
    (handleApiError ⟨⟨true, some 404, none, "m"⟩, []⟩ "ctx").1 =
      ⟨"Resource not found. Please check the ID.", some 404⟩ ∧
    (handleApiError ⟨⟨true, some 500, some "boom", "m"⟩, []⟩ "ctx").1.status = some 500 ∧
    "boom".toList <:+:
      (handleApiError ⟨⟨true, some 500, some "boom", "m"⟩, []⟩ "ctx").1.message.toList := by
  refine ⟨?_, ?_, ?_, ?_⟩
  · exact (C6_error_translation ⟨true, some 401, none, "m"⟩ [] "ctx" 401 rfl rfl
      (by decide)).1 (Or.inl rfl)
  · exact (C6_error_translation ⟨true, some 404, none, "m"⟩ [] "ctx" 404 rfl rfl
      (by decide)).2.1 rfl
  · exact ((C6_error_translation ⟨true, some 500, some "boom", "m"⟩ [] "ctx" 500 rfl rfl
      (by decide)).2.2 (by decide) (by decide) (by decide)).1
  · exact ((C6_error_translation ⟨true, some 500, some "boom", "m"⟩ [] "ctx" 500 rfl rfl
      (by decide)).2.2 (by decide) (by decide) (by decide)).2 "boom" rfl (by decide)

/-- C7 counterexample: the gemini server's `uncaughtException` handler calls
`process.exit(1)` after logging, refuting the claim that every server's
process-level handlers log without forcibly exiting. -/
theorem C7_counterexample :
    (geminiUncaughtExceptionHandler "boom" "stacktrace").exitCode = some 1 :=
  rfl

/-- C7 (amended): the n8n server's `uncaughtException` and
`unhandledRejection` handlers log the failure to the diagnostic stream and
do not exit the process, while the gemini server's corresponding handlers
log the failure and then forcibly exit with code 1. -/
theorem C7_handler_behavior (error stack reason : String) :
    (n8nUncaughtExceptionHandler error).exitCode = none ∧
    (n8nUncaughtExceptionHandler error).logs ≠ [] ∧
    (n8nUnhandledRejectionHandler reason).exitCode = none ∧
    (n8nUnhandledRejectionHandler reason).logs ≠ [] ∧
    (geminiUncaughtExceptionHandler error stack).exitCode = some 1 ∧
    (geminiUncaughtExceptionHandler error stack).logs ≠ [] ∧
    (geminiUnhandledRejectionHandler reason).exitCode = some 1 ∧
    (geminiUnhandledRejectionHandler reason).logs ≠ [] := by
  refine ⟨rfl, ?_, rfl, ?_, rfl, ?_, rfl, ?_⟩ <;> simp [n8nUncaughtExceptionHandler,
    n8nUnhandledRejectionHandler, geminiUncaughtExceptionHandler,
    geminiUnhandledRejectionHandler]

/-- C8: for any tool name outside the n8n server's registry, dispatch yields
the distinct unknown-tool `McpError` (InvalidRequest) and invokes no tool
function (hence no adapter call is made); the dispatcher never no-ops or
falls through to a default tool. -/
theorem C8_unknown_tool (env : N8nEnv) (name id : String)
    (remote : Except AxiosFailure JVal) (h : name ∉ n8nToolNames) :
    (handleTool env name id remote).1 =
      .error ⟨"Unknown tool: " ++ name, .invalidRequest⟩ ∧
    (handleTool env name id remote).2 = [] := by
  have h1 : ¬(name = "mcp_list_workflows") := by rintro rfl; exact h (by decide)
  have h2 : ¬(name = "mcp_get_workflow") := by rintro rfl; exact h (by decide)
  have h3 : ¬(name = "mcp_activate_workflow") := by rintro rfl; exact h (by decide)
  have h4 : ¬(name = "mcp_deactivate_workflow") := by rintro rfl; exact h (by decide)
  have h5 : ¬(name = "mcp_execute_workflow") := by rintro rfl; exact h (by decide)
  have h6 : ¬(name = "mcp_list_workflow_executions") := by rintro rfl; exact h (by decide)
  have h7 : ¬(name = "mcp_get_execution") := by rintro rfl; exact h (by decide)
  unfold handleTool
  rw [if_neg h1, if_neg h2, if_neg h3, if_neg h4, if_neg h5, if_neg h6, if_neg h7]
  exact ⟨rfl, rfl⟩

/-- C8 witness at the unknown name `"bogus_tool"`. -/
theorem C8_unknown_tool_witness :
    (handleTool ⟨some "http://localhost:5678", some "key"⟩ "bogus_tool" ""
      (.ok JVal.null)).1 =
      .error ⟨"Unknown tool: " ++ "bogus_tool", .invalidRequest⟩ ∧
    (handleTool ⟨some "http://localhost:5678", some "key"⟩ "bogus_tool" ""
      (.ok JVal.null)).2 = [] :=
  C8_unknown_tool ⟨some "http://localhost:5678", some "key"⟩ "bogus_tool" ""
    (.ok JVal.null) (by decide)

end MCPServers
